import Mathlib

/-!
Shallow embedding of the trading-data-server core (signal_detector.py,
database.py, trading_data_server.py) and proofs about its specification.

Numeric indicator values are modelled as rationals; Python `None` /
missing dictionary keys are modelled with `Option`.  A Python indicator
dictionary is modelled as a function from key strings to optional values
(`.get` semantics).  SQL timestamps are modelled as integers (ISO-8601
strings compare lexicographically, which agrees with chronological
integer order).
-/

namespace TradingData

/-- Signal direction, from the `direction` string field of the source. -/
inductive Direction where
  | BULLISH
  | BEARISH
deriving DecidableEq, Repr

/-- Signal strength, from the `strength` string field of the source. -/
inductive Strength where
  | WEAK
  | MEDIUM
  | STRONG
deriving DecidableEq, Repr

/-- A detected signal draft as built by the `_check_*` helpers of
`SignalDetector` (the human-readable `message` field is omitted: no
claim concerns it). -/
structure Signal where
  signal_type : String
  direction : Direction
  strength : Strength
deriving DecidableEq, Repr

/-- A Python indicator dictionary, accessed only through `.get`:
`d k` is `some v` when key `k` is present with value `v`, else `none`. -/
def Dict : Type := String → Option ℚ

/-- The empty dictionary (`{}` in Python). -/
def emptyDict : Dict := fun _ => none

/-- Python truthiness of an optional float: `None` and `0.0` are falsy. -/
def truthy (x : Option ℚ) : Bool :=
  match x with
  | none => false
  | some v => decide (v ≠ 0)

/-- Python `a or b` on optional floats: yields `a` when `a` is truthy,
otherwise `b`. -/
def pyOr (a b : Option ℚ) : Option ℚ :=
  if truthy a then a else b

/-- Embedding of `SignalDetector._check_rsi` from src/signal_detector.py lines 95-137.
The Python guards `prev_rsi and prev_rsi > 30` use truthiness of
`prev_rsi`, embedded via `truthy`. -/
def check_rsi (current_rsi prev_rsi : Option ℚ) : Option Signal :=
  match current_rsi with
  | none => none
  | some c =>
    if truthy prev_rsi && decide (30 < prev_rsi.getD 0) && decide (c ≤ 30) then
      some ⟨"RSI_OVERSOLD", .BULLISH, if decide (c ≤ 20) then .STRONG else .MEDIUM⟩
    else if truthy prev_rsi && decide (prev_rsi.getD 0 < 70) && decide (70 ≤ c) then
      some ⟨"RSI_OVERBOUGHT", .BEARISH, if decide (80 ≤ c) then .STRONG else .MEDIUM⟩
    else if decide (c ≤ 20) then
      some ⟨"RSI_EXTREME_OVERSOLD", .BULLISH, .STRONG⟩
    else if decide (80 ≤ c) then
      some ⟨"RSI_EXTREME_OVERBOUGHT", .BEARISH, .STRONG⟩
    else
      none

/-- Embedding of `SignalDetector._check_macd` from src/signal_detector.py lines 139-175.
The `is not None` guards are embedded with `Option.isSome`. -/
def check_macd (macd_line macd_signal histogram prev_histogram : Option ℚ) :
    Option Signal :=
  match histogram with
  | none => none
  | some h =>
    if prev_histogram.isSome && decide (prev_histogram.getD 0 < 0) && decide (0 ≤ h) then
      some ⟨"MACD_BULLISH_CROSS", .BULLISH, .MEDIUM⟩
    else if prev_histogram.isSome && decide (0 < prev_histogram.getD 0) && decide (h ≤ 0) then
      some ⟨"MACD_BEARISH_CROSS", .BEARISH, .MEDIUM⟩
    else
      match macd_line, macd_signal with
      | some l, some s =>
        if decide (500 < |l - s|) then
          some ⟨"MACD_DIVERGENCE",
                if decide (0 < l - s) then .BULLISH else .BEARISH, .WEAK⟩
        else none
      | _, _ => none

/-- Embedding of `SignalDetector._check_200ma` from src/signal_detector.py lines 177-207. -/
def check_200ma (price ma_200 prev_price prev_ma : Option ℚ) : Option Signal :=
  match price, ma_200 with
  | some p, some m =>
    match prev_price, prev_ma with
    | some pp, some pm =>
      if decide (pp < pm) && decide (m < p) then
        some ⟨"MA200_BULLISH_CROSS", .BULLISH, .STRONG⟩
      else if decide (pm < pp) && decide (p < m) then
        some ⟨"MA200_BEARISH_CROSS", .BEARISH, .STRONG⟩
      else none
    | _, _ => none
  | _, _ => none

/-- Embedding of `SignalDetector._check_bollinger` from src/signal_detector.py lines 209-233. -/
def check_bollinger (price bb_upper bb_lower : Option ℚ) : Option Signal :=
  match price, bb_upper, bb_lower with
  | some p, some u, some l =>
    if decide (u ≤ p) then some ⟨"BB_UPPER_TOUCH", .BEARISH, .WEAK⟩
    else if decide (p ≤ l) then some ⟨"BB_LOWER_TOUCH", .BULLISH, .WEAK⟩
    else none
  | _, _, _ => none

/-- The RSI input selection of `check_all_signals` (src/signal_detector.py
lines 38-41): `indicators.get('rsi_1d') or indicators.get('rsi')`. -/
def rsi_input (d : Dict) : Option ℚ := pyOr (d "rsi_1d") (d "rsi")

/-- The RSI part of one detector call, applied to the current and previous
snapshots exactly as `check_all_signals` wires it. -/
def rsi_from_snaps (indicators prev : Dict) : Option Signal :=
  check_rsi (rsi_input indicators) (rsi_input prev)

/-- Model of `DetectorMemory`: the detector's `_last_values` cache, mapping a symbol
to its last-seen indicator dictionary. -/
def Mem : Type := String → Option Dict

/-- A fired signal with the `signal['symbol'] = symbol` stamp applied. -/
structure SymSignal where
  symbol : String
  sig : Signal
deriving DecidableEq, Repr

/-- Embedding of `SignalDetector.check_all_signals` from src/signal_detector.py lines
27-93, as a state transformer on the detector memory: returns the list of
fired signals and the updated memory (`_last_values[symbol] =
indicators.copy()`).  Database persistence of the fired signals is a
separate effect that does not touch the memory and is not modelled here. -/
def check_all_signals (mem : Mem) (symbol : String) (indicators : Dict) :
    List SymSignal × Mem :=
  let prev := (mem symbol).getD emptyDict
  let fired : List (Option Signal) :=
    [ rsi_from_snaps indicators prev,
      check_macd (indicators "macd_line") (indicators "macd_signal")
        (indicators "macd_histogram") (prev "macd_histogram"),
      check_200ma (indicators "price") (indicators "ma_200")
        (prev "price") (prev "ma_200"),
      check_bollinger (indicators "price") (indicators "bb_upper")
        (indicators "bb_lower") ]
  ((fired.filterMap id).map (fun s => ⟨symbol, s⟩),
   fun s => if s = symbol then some indicators else mem s)

/-! ## Database model (src/database.py) -/

/-- A row of the `trading_indicators` history table (src/database.py lines
37-49).  `received_at` defaults to `CURRENT_TIMESTAMP` at insert time. -/
structure IndRow where
  symbol : String
  indicator_name : String
  value : ℚ
  value2 : Option ℚ
  value3 : Option ℚ
  timeframe : String
  source : String
  received_at : ℤ
deriving DecidableEq, Repr

/-- A row of the `latest_indicators` cache table (src/database.py lines
129-140), primary key `(symbol, indicator_name)`. -/
structure LatestRow where
  value : ℚ
  value2 : Option ℚ
  value3 : Option ℚ
  timeframe : String
  updated_at : ℤ
deriving DecidableEq, Repr

/-- A row of the `trading_signals` table (src/database.py lines 66-80).
`indicator_values` (a JSON blob) is omitted: no claim concerns it. -/
structure SigRow where
  id : ℕ
  symbol : String
  signal_type : String
  direction : String
  strength : String
  price_at_signal : Option ℚ
  message : Option String
  received_at : ℤ
  acknowledged : Bool
  acknowledged_at : Option ℤ
deriving DecidableEq, Repr

/-- The database state: history list, keyed latest-cache, signal log. -/
structure DB where
  indicators : List IndRow
  latest : String × String → Option LatestRow
  signals : List SigRow

/-- A database with empty tables. -/
def emptyDB : DB :=
  { indicators := [], latest := fun _ => none, signals := [] }

/-- Embedding of `TradingDatabase.save_indicator` from src/database.py lines 146-172:
append to `trading_indicators` and `INSERT OR REPLACE` the
`latest_indicators` row for `(symbol, indicator_name)`.  `now` stands for
the SQL `CURRENT_TIMESTAMP` at the time of the call. -/
def save_indicator (db : DB) (now : ℤ) (symbol indicator_name : String)
    (value : ℚ) (timeframe : String := "1D") (value2 : Option ℚ := none)
    (value3 : Option ℚ := none) (source : String := "tradingview") : DB :=
  { db with
    indicators := db.indicators ++
      [⟨symbol, indicator_name, value, value2, value3, timeframe, source, now⟩],
    latest := fun k =>
      if k = (symbol, indicator_name) then
        some ⟨value, value2, value3, timeframe, now⟩
      else db.latest k }

/-- The per-name content of `get_latest_indicators` (src/database.py lines
174-202): the `indicators` mapping of the result, name ↦
`{value, value2, value3, timeframe}`. -/
structure LatestOut where
  value : ℚ
  value2 : Option ℚ
  value3 : Option ℚ
  timeframe : String
deriving DecidableEq, Repr

/-- Embedding of `TradingDatabase.get_latest_indicators` restricted to the `indicators`
mapping it builds: for each name with a `latest_indicators` row for
`symbol`, the value/value2/value3/timeframe of that row. -/
def get_latest_indicators (db : DB) (symbol : String) :
    String → Option LatestOut :=
  fun name => (db.latest (symbol, name)).map
    (fun r => ⟨r.value, r.value2, r.value3, r.timeframe⟩)

/-- Embedding of `TradingDatabase.save_signal` from src/database.py lines 225-243:
append a row to `trading_signals`, unacknowledged. -/
def save_signal (db : DB) (now : ℤ) (id : ℕ) (symbol signal_type direction : String)
    (strength : String := "MEDIUM") (price : Option ℚ := none)
    (message : Option String := none) : DB :=
  { db with
    signals := db.signals ++
      [⟨id, symbol, signal_type, direction, strength, price, message, now,
        false, none⟩] }

/-- Embedding of `TradingDatabase.acknowledge_signal` from src/database.py lines 276-285:
`UPDATE trading_signals SET acknowledged = 1, acknowledged_at =
CURRENT_TIMESTAMP WHERE id = ?`, returning `cursor.rowcount > 0` (whether
any row matched). -/
def acknowledge_signal (db : DB) (now : ℤ) (signal_id : ℕ) : DB × Bool :=
  ({ db with
     signals := db.signals.map (fun r =>
       if r.id = signal_id then
         { r with acknowledged := true, acknowledged_at := some now }
       else r) },
   db.signals.any (fun r => decide (r.id = signal_id)))

/-- Embedding of `TradingDatabase.cleanup_old_data` from src/database.py lines 442-459:
delete `trading_indicators` rows with `received_at < cutoff`, delete
`trading_signals` rows with `received_at < cutoff AND acknowledged = 1`,
and return `cursor.rowcount` of the last statement — the number of signal
rows deleted.  `cutoff = now - days` (days expressed in the same integer
time unit as the timestamps). -/
def cleanup_old_data (db : DB) (now days : ℤ) : DB × ℕ :=
  let cutoff := now - days
  ({ db with
     indicators := db.indicators.filter
       (fun r => !decide (r.received_at < cutoff)),
     signals := db.signals.filter
       (fun r => !(decide (r.received_at < cutoff) && r.acknowledged)) },
   (db.signals.filter
      (fun r => decide (r.received_at < cutoff) && r.acknowledged)).length)

/-- The trend derivation of `TradingDatabase.get_summary` (src/database.py
lines 406-412): `trend = "NEUTRAL"; if price and above_ma: trend =
"BULLISH" if price > above_ma else "BEARISH"` — `price`/`above_ma` are
the `value` fields of the latest `price` and `ma_200` rows, and the `if`
uses Python truthiness. -/
inductive Trend where
  | BULLISH
  | BEARISH
  | NEUTRAL
deriving DecidableEq, Repr

/-- The trend computation of `get_summary` on the two optional values. -/
def summary_trend (price above_ma : Option ℚ) : Trend :=
  if truthy price && truthy above_ma then
    if decide (above_ma.getD 0 < price.getD 0) then .BULLISH else .BEARISH
  else .NEUTRAL

/-- The trend field of `get_summary` for a symbol, reading the latest `price`
and `ma_200` values as the source does. -/
def get_summary_trend (db : DB) (symbol : String) : Trend :=
  summary_trend ((db.latest (symbol, "price")).map (·.value))
    ((db.latest (symbol, "ma_200")).map (·.value))

/-! ## Webhook ingestion (src/trading_data_server.py) -/

/-- ASCII upper-casing of a character (the indicator tags and timeframes
handled by the source are ASCII, so this matches Python `str.upper`). -/
def upperChar (c : Char) : Char :=
  if 97 ≤ c.toNat ∧ c.toNat ≤ 122 then Char.ofNat (c.toNat - 32) else c

/-- ASCII lower-casing of a character. -/
def lowerChar (c : Char) : Char :=
  if 65 ≤ c.toNat ∧ c.toNat ≤ 90 then Char.ofNat (c.toNat + 32) else c

/-- ASCII `str.upper`. -/
def upperStr (s : String) : String := ⟨s.data.map upperChar⟩

/-- ASCII `str.lower`. -/
def lowerStr (s : String) : String := ⟨s.data.map lowerChar⟩

/-- The `TradingViewWebhook` payload (src/trading_data_server.py lines
107-116; the `secret` field is dropped, no claim concerns it). -/
structure Webhook where
  symbol : String
  indicator : String
  value : Option ℚ
  value2 : Option ℚ
  value3 : Option ℚ
  timeframe : String
deriving DecidableEq, Repr

/-- The `indicator_map` lookup of `receive_tradingview_webhook`
(src/trading_data_server.py lines 136-151):
`indicator_map.get(webhook.indicator.upper(), webhook.indicator.lower())`. -/
def indicator_key (w : Webhook) : String :=
  let u := upperStr w.indicator
  if u = "RSI" then "rsi_" ++ lowerStr w.timeframe
  else if u = "MACD_LINE" then "macd_line"
  else if u = "MACD_SIGNAL" then "macd_signal"
  else if u = "MACD_HISTOGRAM" then "macd_histogram"
  else if u = "MACD" then "macd_line"
  else if u = "MA200" then "ma_200"
  else if u = "200MA" then "ma_200"
  else if u = "ATR" then "atr_14"
  else if u = "VOLUME" then "volume_ratio"
  else if u = "BB_UPPER" then "bb_upper"
  else if u = "BB_LOWER" then "bb_lower"
  else if u = "PRICE" then "price"
  else lowerStr w.indicator

/-- One `db.save_indicator` invocation issued by the webhook handler,
with the arguments it passes (symbol and source are fixed per request). -/
structure SaveCall where
  indicator_name : String
  value : Option ℚ
  value2 : Option ℚ
  value3 : Option ℚ
  timeframe : String
deriving DecidableEq, Repr

/-- The sequence of `db.save_indicator` calls issued by
`receive_tradingview_webhook` (src/trading_data_server.py lines 153-174):
one unconditional save under `indicator_key`, then the MACD expansion
(signal from `value2`, and histogram from `value3` only nested inside the
`value2` branch), then the BB/Bollinger expansion (upper from `value`,
lower from `value2`). -/
def webhook_saves (w : Webhook) : List SaveCall :=
  let u := upperStr w.indicator
  [⟨indicator_key w, w.value, w.value2, w.value3, w.timeframe⟩]
  ++ (if u = "MACD" then
        match w.value2 with
        | some v2 =>
          ⟨"macd_signal", some v2, none, none, w.timeframe⟩ ::
            (match w.value3 with
             | some v3 => [⟨"macd_histogram", some v3, none, none, w.timeframe⟩]
             | none => [])
        | none => []
      else [])
  ++ (if u = "BB" ∨ u = "BOLLINGER" then
        (match w.value with
         | some v => [⟨"bb_upper", some v, none, none, w.timeframe⟩]
         | none => [])
        ++ (match w.value2 with
            | some v2 => [⟨"bb_lower", some v2, none, none, w.timeframe⟩]
            | none => [])
      else [])

/-! ## Specification-side functions (written from the claims' wording,
to be compared with the source embeddings above) -/

/-- Claim C1's input selection, as worded: take the daily key whenever it
is present, fall back to the generic key only when it is absent. -/
def rsi_input_claim (d : Dict) : Option ℚ :=
  match d "rsi_1d" with
  | some v => some v
  | none => d "rsi"

/-- Claim C1's RSI rule on the selected current value `c` and selected
previous value, as worded: first matching case in the stated order. -/
def rsi_rule_claim (c : ℚ) (p? : Option ℚ) : Option Signal :=
  match p? with
  | some p =>
    if 30 < p ∧ c ≤ 30 then
      some ⟨"RSI_OVERSOLD", .BULLISH, if c ≤ 20 then .STRONG else .MEDIUM⟩
    else if p < 70 ∧ 70 ≤ c then
      some ⟨"RSI_OVERBOUGHT", .BEARISH, if 80 ≤ c then .STRONG else .MEDIUM⟩
    else if c ≤ 20 then some ⟨"RSI_EXTREME_OVERSOLD", .BULLISH, .STRONG⟩
    else if 80 ≤ c then some ⟨"RSI_EXTREME_OVERBOUGHT", .BEARISH, .STRONG⟩
    else none
  | none =>
    if c ≤ 20 then some ⟨"RSI_EXTREME_OVERSOLD", .BULLISH, .STRONG⟩
    else if 80 ≤ c then some ⟨"RSI_EXTREME_OVERBOUGHT", .BEARISH, .STRONG⟩
    else none

/-- Claim C1 as stated: the RSI signal of a detector call given the
current and previous snapshots. -/
def rsi_claim_spec (snap prevSnap : Dict) : Option Signal :=
  match rsi_input_claim snap with
  | none => none
  | some c => rsi_rule_claim c (rsi_input_claim prevSnap)

/-- C1 amended input selection: the daily key is used only when present
with a nonzero value (Python truthiness), otherwise the generic key. -/
def rsi_input_amended (d : Dict) : Option ℚ :=
  match d "rsi_1d" with
  | some v => if v ≠ 0 then some v else d "rsi"
  | none => d "rsi"

/-- C1 amended RSI rule: a previous value counts as present for the
transition cases only when it is nonzero. -/
def rsi_rule_amended (c : ℚ) (p? : Option ℚ) : Option Signal :=
  match p? with
  | some p =>
    if p ≠ 0 ∧ 30 < p ∧ c ≤ 30 then
      some ⟨"RSI_OVERSOLD", .BULLISH, if c ≤ 20 then .STRONG else .MEDIUM⟩
    else if p ≠ 0 ∧ p < 70 ∧ 70 ≤ c then
      some ⟨"RSI_OVERBOUGHT", .BEARISH, if 80 ≤ c then .STRONG else .MEDIUM⟩
    else if c ≤ 20 then some ⟨"RSI_EXTREME_OVERSOLD", .BULLISH, .STRONG⟩
    else if 80 ≤ c then some ⟨"RSI_EXTREME_OVERBOUGHT", .BEARISH, .STRONG⟩
    else none
  | none =>
    if c ≤ 20 then some ⟨"RSI_EXTREME_OVERSOLD", .BULLISH, .STRONG⟩
    else if 80 ≤ c then some ⟨"RSI_EXTREME_OVERBOUGHT", .BEARISH, .STRONG⟩
    else none

/-- C1 amended, assembled over the two snapshots. -/
def rsi_amended_spec (snap prevSnap : Dict) : Option Signal :=
  match rsi_input_amended snap with
  | none => none
  | some c => rsi_rule_amended c (rsi_input_amended prevSnap)

/-- Claim C3's divergence case, as worded. -/
def macd_divergence_claim (line sig : Option ℚ) : Option Signal :=
  match line, sig with
  | some l, some s =>
    if 500 < |l - s| then
      some ⟨"MACD_DIVERGENCE",
            if 0 < l - s then .BULLISH else .BEARISH, .WEAK⟩
    else none
  | _, _ => none

/-- Claim C3 as stated: cross checks take priority, divergence only when
neither cross fires, nothing when the current histogram is absent. -/
def macd_claim_spec (line sig hist prevHist : Option ℚ) : Option Signal :=
  match hist with
  | none => none
  | some h =>
    match prevHist with
    | some ph =>
      if ph < 0 ∧ 0 ≤ h then some ⟨"MACD_BULLISH_CROSS", .BULLISH, .MEDIUM⟩
      else if 0 < ph ∧ h ≤ 0 then some ⟨"MACD_BEARISH_CROSS", .BEARISH, .MEDIUM⟩
      else macd_divergence_claim line sig
    | none => macd_divergence_claim line sig

/-- Claim C4 as stated: a MA200 signal only when all four inputs are
present, and then only on a crossing. -/
def ma200_claim_spec (price ma prevPrice prevMa : Option ℚ) : Option Signal :=
  match price, ma, prevPrice, prevMa with
  | some p, some m, some pp, some pm =>
    if pp < pm ∧ m < p then some ⟨"MA200_BULLISH_CROSS", .BULLISH, .STRONG⟩
    else if pm < pp ∧ p < m then some ⟨"MA200_BEARISH_CROSS", .BEARISH, .STRONG⟩
    else none
  | _, _, _, _ => none

/-- Claim C8 as stated: BULLISH when price > ma, BEARISH when price < ma,
NEUTRAL otherwise (equality or a missing input). -/
def trend_claim_spec (price ma : Option ℚ) : Trend :=
  match price, ma with
  | some p, some m =>
    if m < p then .BULLISH else if p < m then .BEARISH else .NEUTRAL
  | _, _ => .NEUTRAL

/-- C8 amended: BULLISH when both values are present and nonzero and
price > ma; BEARISH when both are present and nonzero and price ≤ ma
(equality included); NEUTRAL when either is absent or zero. -/
def trend_amended_spec (price ma : Option ℚ) : Trend :=
  match price, ma with
  | some p, some m =>
    if p ≠ 0 ∧ m ≠ 0 then (if m < p then .BULLISH else .BEARISH) else .NEUTRAL
  | _, _ => .NEUTRAL

/-! ## Write sequences against the indicator store (for C2) -/

/-- One `save_indicator` call as issued over time: its arguments plus the
`CURRENT_TIMESTAMP` value `ts` the database assigns when it runs. -/
structure Write where
  symbol : String
  indicator_name : String
  value : ℚ
  value2 : Option ℚ
  value3 : Option ℚ
  timeframe : String
  ts : ℤ
deriving DecidableEq, Repr

/-- Apply one write to the database. -/
def apply_write (db : DB) (w : Write) : DB :=
  save_indicator db w.ts w.symbol w.indicator_name w.value w.timeframe
    w.value2 w.value3

/-- Apply a finite sequence of writes in arrival order. -/
def apply_writes (db : DB) (ws : List Write) : DB := ws.foldl apply_write db

/-- The writes of a sequence that concern the key `(sym, name)`. -/
def forKey (sym name : String) (w : Write) : Bool :=
  decide (w.symbol = sym) && decide (w.indicator_name = name)

/-! ## Concrete fixtures used by witnesses and counterexamples -/

/-- A snapshot whose daily RSI key is present with value 0 and whose
generic RSI key is 50. -/
def snapZero : Dict := fun k =>
  if k = "rsi_1d" then some 0 else if k = "rsi" then some 50 else none

/-- A database whose latest `price` and `ma_200` for BTCUSD are equal. -/
def dbEqual : DB :=
  save_indicator (save_indicator emptyDB 1 "BTCUSD" "price" 100)
    2 "BTCUSD" "ma_200" 100

/-- A Bollinger webhook carrying both bands. -/
def wBB : Webhook := ⟨"BTCUSD", "BB", some 1, some 2, none, "1D"⟩

/-- A concrete write sequence: two writes for (BTCUSD, rsi_1d) with an
unrelated write in between. -/
def wsEx : List Write :=
  [⟨"BTCUSD", "rsi_1d", 30, none, none, "1D", 1⟩,
   ⟨"BTCUSD", "price", 500, none, none, "1D", 2⟩,
   ⟨"BTCUSD", "rsi_1d", 28, none, none, "1D", 3⟩]

/-- An unacknowledged signal row with id 7. -/
def sigRow7 : SigRow :=
  ⟨7, "BTCUSD", "RSI_OVERSOLD", "BULLISH", "MEDIUM", none, none, 10,
   false, none⟩

/-- A database holding only `sigRow7`. -/
def dbAck : DB := { emptyDB with signals := [sigRow7] }

/-- An old (timestamp 0) signal row that was never acknowledged. -/
def sigOldUnacked : SigRow :=
  ⟨1, "BTCUSD", "RSI_OVERSOLD", "BULLISH", "MEDIUM", none, none, 0,
   false, none⟩

/-- An old (timestamp 0) signal row that was acknowledged. -/
def sigOldAcked : SigRow :=
  ⟨2, "BTCUSD", "RSI_OVERBOUGHT", "BEARISH", "MEDIUM", none, none, 0,
   true, some 5⟩

/-- An old indicator history row. -/
def indOld1 : IndRow :=
  ⟨"BTCUSD", "rsi_1d", 30, none, none, "1D", "tradingview", 0⟩

/-- Another old indicator history row. -/
def indOld2 : IndRow :=
  ⟨"BTCUSD", "price", 500, none, none, "1D", "tradingview", 1⟩

/-- A database with two old indicator rows, one old unacknowledged signal
and one old acknowledged signal. -/
def dbOld : DB :=
  { emptyDB with
    indicators := [indOld1, indOld2],
    signals := [sigOldUnacked, sigOldAcked] }

/-- A database with two old indicator rows and one old unacknowledged
signal: a cleanup deletes indicator rows but zero signal rows. -/
def dbOldUnacked : DB :=
  { emptyDB with
    indicators := [indOld1, indOld2],
    signals := [sigOldUnacked] }

/-! ## Theorems -/

/-- The RSI input selections of the source and of the amended claim
coincide: Python `or` falls back exactly when the daily value is absent
or zero. -/
lemma rsi_input_eq_amended (d : Dict) : rsi_input d = rsi_input_amended d := by
  unfold rsi_input rsi_input_amended pyOr truthy
  cases h : d "rsi_1d" with
  | none => simp
  | some v => by_cases hv : v = 0 <;> simp [hv]

/-- The source RSI rule equals the amended claim rule on selected values. -/
lemma check_rsi_eq_amended (cur prev : Option ℚ) :
    check_rsi cur prev =
      (match cur with
       | none => none
       | some c => rsi_rule_amended c prev) := by
  cases cur with
  | none => rfl
  | some c =>
    cases prev with
    | none =>
      simp [check_rsi, rsi_rule_amended, truthy]
    | some p =>
      simp only [check_rsi, rsi_rule_amended, truthy, Option.getD_some]
      by_cases h0 : p = 0 <;> by_cases h1 : (30 : ℚ) < p <;>
        by_cases h2 : c ≤ 30 <;> by_cases h3 : p < 70 <;>
        by_cases h4 : (70 : ℚ) ≤ c <;>
        simp_all

/-- C1, amended: per detector call, the RSI input is the snapshot's daily
key `rsi_1d` whenever that key is present with a nonzero value, with
fallback to `rsi` when it is absent or zero (and likewise for the
previous snapshot); a previous value counts for the transition cases
only when nonzero; otherwise the four cases fire exactly as C1 lists
them, first match winning, at most one RSI signal per call. -/
theorem rsi_rule_correct (snap prevSnap : Dict) :
    rsi_from_snaps snap prevSnap = rsi_amended_spec snap prevSnap := by
  unfold rsi_from_snaps rsi_amended_spec
  rw [show rsi_input snap = rsi_input_amended snap from rsi_input_eq_amended snap]
  rw [rsi_input_eq_amended prevSnap]
  rw [check_rsi_eq_amended]

/-- C1, counterexample to the claim as stated: on a snapshot where the
daily key is present with value 0 and the generic key holds 50 (previous
snapshot empty), the claim says the RSI input is 0, so a BULLISH STRONG
extreme-oversold signal fires; the source falls back to the generic key
(Python truthiness) and fires nothing. -/
theorem rsi_claim_counterexample :
    rsi_from_snaps snapZero emptyDict = none ∧
    rsi_claim_spec snapZero emptyDict =
      some ⟨"RSI_EXTREME_OVERSOLD", .BULLISH, .STRONG⟩ ∧
    rsi_from_snaps snapZero emptyDict ≠ rsi_claim_spec snapZero emptyDict := by
  refine ⟨by decide, by decide, by decide⟩

/-- C3: the source MACD check behaves exactly as the claim states — no
signal without a current histogram, cross checks first (at most one can
match), divergence only when neither cross fires and both `macd_line`
and `macd_signal` are present with `|line - signal| > 500`, the
divergence direction following the sign of the difference; at most one
MACD signal per call. -/
theorem macd_rule_correct (line sig hist prevHist : Option ℚ) :
    check_macd line sig hist prevHist = macd_claim_spec line sig hist prevHist := by
  cases hist with
  | none => rfl
  | some h =>
    cases prevHist with
    | none =>
      cases line <;> cases sig <;>
        simp [check_macd, macd_claim_spec, macd_divergence_claim]
    | some ph =>
      by_cases h1 : ph < 0 <;> by_cases h2 : (0 : ℚ) ≤ h <;>
        by_cases h3 : 0 < ph <;> by_cases h4 : h ≤ 0 <;>
        cases line <;> cases sig <;>
        simp_all [check_macd, macd_claim_spec, macd_divergence_claim]

/-- C4: the source 200-MA check behaves exactly as the claim states — a
signal fires only when current price, current MA, previous price and
previous MA are all present, and then only on a crossing (below→above is
BULLISH STRONG, above→below is BEARISH STRONG); in every other case,
including a missing previous value or a sustained side, no MA signal. -/
theorem ma200_rule_correct (price ma prevPrice prevMa : Option ℚ) :
    check_200ma price ma prevPrice prevMa =
      ma200_claim_spec price ma prevPrice prevMa := by
  cases price <;> cases ma <;> cases prevPrice <;> cases prevMa <;>
    simp [check_200ma, ma200_claim_spec]

/-- C5: every `check_all_signals` call ends with the detector memory for
the given symbol equal to exactly the given snapshot (a full replacement,
performed whether or not any signal fired), and the memory of every
other symbol unchanged. -/
theorem check_all_signals_memory (mem : Mem) (symbol : String)
    (indicators : Dict) :
    (check_all_signals mem symbol indicators).2 symbol = some indicators ∧
    ∀ s : String, s ≠ symbol →
      (check_all_signals mem symbol indicators).2 s = mem s := by
  refine ⟨?_, ?_⟩
  · simp [check_all_signals]
  · intro s hs
    simp [check_all_signals, hs]

/-- Witness for C5 at a concrete call: memory for BTCUSD becomes the
given (empty) snapshot and the entry of ETHUSD is untouched. -/
theorem check_all_signals_memory_witness :
    (check_all_signals (fun _ => none) "BTCUSD" emptyDict).2 "BTCUSD" =
      some emptyDict ∧
    "ETHUSD" ≠ "BTCUSD" ∧
    (check_all_signals (fun _ => none) "BTCUSD" emptyDict).2 "ETHUSD" =
      (fun _ => none : Mem) "ETHUSD" :=
  ⟨(check_all_signals_memory (fun _ => none) "BTCUSD" emptyDict).1,
   by decide,
   (check_all_signals_memory (fun _ => none) "BTCUSD" emptyDict).2
     "ETHUSD" (by decide)⟩

/-- Unfolding writes one call at a time from the right. -/
lemma apply_writes_append (db : DB) (ws : List Write) (w : Write) :
    apply_writes db (ws ++ [w]) = apply_write (apply_writes db ws) w := by
  simp [apply_writes, List.foldl_append]

/-- After a write sequence, the latest-cache row of a key is the last
write for that key, when one exists. -/
lemma apply_writes_latest (ws : List Write) (db : DB) (sym name : String) :
    (apply_writes db ws).latest (sym, name) =
      match (ws.filter (forKey sym name)).getLast? with
      | some w => some ⟨w.value, w.value2, w.value3, w.timeframe, w.ts⟩
      | none => db.latest (sym, name) := by
  induction ws using List.reverseRecOn with
  | nil => rfl
  | append_singleton ws w ih =>
    rw [apply_writes_append, List.filter_append]
    by_cases hw : forKey sym name w
    · have hs : w.symbol = sym ∧ w.indicator_name = name := by
        simpa [forKey] using hw
      simp [apply_write, save_indicator, hw, hs.1, hs.2]
    · have hs : ¬ ((sym, name) = (w.symbol, w.indicator_name)) := by
        simp only [forKey, Bool.and_eq_true, decide_eq_true_eq] at hw
        intro h
        exact hw ⟨congrArg Prod.fst h.symm, congrArg Prod.snd h.symm⟩
      simp [apply_write, save_indicator, hw, hs, ih]

/-- In a list sorted by strictly increasing timestamps, every element's
timestamp is at most that of the last element. -/
lemma ts_le_getLast :
    ∀ (l : List Write) (hl : l ≠ []),
      l.Pairwise (fun a b => a.ts < b.ts) →
      ∀ x ∈ l, x.ts ≤ (l.getLast hl).ts := by
  intro l
  induction l with
  | nil => intro hl; exact absurd rfl hl
  | cons a t ih =>
    intro _ hs x hx
    cases t with
    | nil =>
      rcases List.mem_singleton.1 hx with rfl
      exact le_refl _
    | cons b t2 =>
      rw [List.getLast_cons (List.cons_ne_nil b t2)]
      rcases List.mem_cons.1 hx with rfl | hx2
      · exact le_of_lt ((List.pairwise_cons.1 hs).1 _
          (List.getLast_mem (List.cons_ne_nil b t2)))
      · exact ih (List.cons_ne_nil b t2) (List.pairwise_cons.1 hs).2 x hx2

/-- C2: after any finite sequence of `save_indicator` calls (each stamped
with the strictly increasing `CURRENT_TIMESTAMP` of its execution),
`get_latest_indicators` reports, for every (symbol, name) key written,
the value, value2, value3 and timeframe of the observation with the
maximum observed timestamp among the writes for that key — whatever
values arrived and in whatever arrival order. -/
theorem latest_reports_max_observed (ws : List Write)
    (hmono : ws.Pairwise (fun a b => a.ts < b.ts)) (sym name : String)
    (hne : ws.filter (forKey sym name) ≠ []) :
    ∃ w ∈ ws.filter (forKey sym name),
      (∀ w' ∈ ws.filter (forKey sym name), w'.ts ≤ w.ts) ∧
      get_latest_indicators (apply_writes emptyDB ws) sym name =
        some ⟨w.value, w.value2, w.value3, w.timeframe⟩ := by
  refine ⟨(ws.filter (forKey sym name)).getLast hne,
    List.getLast_mem hne, ?_, ?_⟩
  · exact ts_le_getLast _ hne (hmono.sublist (List.filter_sublist ws))
  · unfold get_latest_indicators
    rw [apply_writes_latest, List.getLast?_eq_getLast_of_ne_nil hne]
    rfl

/-- Witness for C2: over the concrete write sequence `wsEx` (two writes
for (BTCUSD, rsi_1d) around an unrelated price write), the latest
projection reports the maximum-timestamp observation for the key. -/
theorem latest_reports_max_observed_witness :
    wsEx.Pairwise (fun a b => a.ts < b.ts) ∧
    wsEx.filter (forKey "BTCUSD" "rsi_1d") ≠ [] ∧
    ∃ w ∈ wsEx.filter (forKey "BTCUSD" "rsi_1d"),
      (∀ w' ∈ wsEx.filter (forKey "BTCUSD" "rsi_1d"), w'.ts ≤ w.ts) ∧
      get_latest_indicators (apply_writes emptyDB wsEx) "BTCUSD" "rsi_1d" =
        some ⟨w.value, w.value2, w.value3, w.timeframe⟩ :=
  ⟨by decide, by decide,
   latest_reports_max_observed wsEx (by decide) "BTCUSD" "rsi_1d" (by decide)⟩

/-- C6: retention cleanup keeps an indicator-history row exactly when it
is not older than the cutoff `now - days`, and keeps a signal row exactly
when it is not both older than the cutoff and acknowledged — so every
old history row is deleted unconditionally, an unacknowledged signal of
any age survives, an acknowledged old signal does not, and rows newer
than the cutoff are untouched. -/
theorem cleanup_retention (db : DB) (now days : ℤ) (r : IndRow) (s : SigRow) :
    (r ∈ (cleanup_old_data db now days).1.indicators ↔
      r ∈ db.indicators ∧ ¬ r.received_at < now - days) ∧
    (s ∈ (cleanup_old_data db now days).1.signals ↔
      s ∈ db.signals ∧
        ¬ (s.received_at < now - days ∧ s.acknowledged = true)) := by
  constructor
  · simp [cleanup_old_data, List.mem_filter]
  · show s ∈ db.signals.filter
        (fun r => !(decide (r.received_at < now - days) && r.acknowledged)) ↔ _
    rw [List.mem_filter]
    constructor
    · rintro ⟨hm, hp⟩
      refine ⟨hm, fun hc => ?_⟩
      rw [hc.2] at hp
      simp [hc.1] at hp
    · rintro ⟨hm, hn⟩
      refine ⟨hm, ?_⟩
      cases hca : s.acknowledged
      · simp [hca]
      · simp only [hca, Bool.and_true, Bool.not_eq_true', decide_eq_false_iff_not]
        exact fun hold => hn ⟨hold, hca⟩

/-- Witness for C6 on `dbOld` with cutoff 970: the old unacknowledged
signal survives, the old acknowledged signal and the old history row do
not. -/
theorem cleanup_retention_witness :
    sigOldUnacked ∈ (cleanup_old_data dbOld 1000 30).1.signals ∧
    ¬ sigOldAcked ∈ (cleanup_old_data dbOld 1000 30).1.signals ∧
    ¬ indOld1 ∈ (cleanup_old_data dbOld 1000 30).1.indicators := by
  refine ⟨?_, ?_, ?_⟩
  · exact (cleanup_retention dbOld 1000 30 indOld1 sigOldUnacked).2.mpr
      ⟨by decide, by decide⟩
  · intro h
    exact ((cleanup_retention dbOld 1000 30 indOld1 sigOldAcked).2.mp h).2
      (by decide)
  · intro h
    exact ((cleanup_retention dbOld 1000 30 indOld1 sigOldUnacked).1.mp h).2
      (by decide)

/-- C7: `acknowledge_signal` returns true exactly when a signal row with
the given id exists; it leaves every row with that id acknowledged with a
non-null `acknowledged_at`; acknowledging the same id a second time
returns the same result and leaves the rows acknowledged (idempotent in
effect); for an id with no matching row it returns false and modifies no
row. -/
theorem acknowledge_correct (db : DB) (now now2 : ℤ) (sid : ℕ) :
    ((acknowledge_signal db now sid).2 = true ↔ ∃ r ∈ db.signals, r.id = sid) ∧
    (∀ r ∈ (acknowledge_signal db now sid).1.signals,
        r.id = sid → r.acknowledged = true ∧ r.acknowledged_at ≠ none) ∧
    ((acknowledge_signal (acknowledge_signal db now sid).1 now2 sid).2 =
        (acknowledge_signal db now sid).2) ∧
    (∀ r ∈ (acknowledge_signal (acknowledge_signal db now sid).1 now2 sid).1.signals,
        r.id = sid → r.acknowledged = true ∧ r.acknowledged_at ≠ none) ∧
    ((¬ ∃ r ∈ db.signals, r.id = sid) →
        (acknowledge_signal db now sid).1 = db ∧
        (acknowledge_signal db now sid).2 = false) := by
  refine ⟨?_, ?_, ?_, ?_, ?_⟩
  · simp [acknowledge_signal, List.any_eq_true]
  · intro r hr hid
    simp only [acknowledge_signal, List.mem_map] at hr
    obtain ⟨a, _, rfl⟩ := hr
    by_cases h : a.id = sid <;> simp_all
  · simp only [acknowledge_signal, List.any_map]
    rw [Bool.eq_iff_iff, List.any_eq_true, List.any_eq_true]
    constructor
    · rintro ⟨a, ha, hp⟩
      refine ⟨a, ha, ?_⟩
      by_cases h : a.id = sid <;> simp_all
    · rintro ⟨a, ha, hp⟩
      refine ⟨a, ha, ?_⟩
      by_cases h : a.id = sid <;> simp_all
  · intro r hr hid
    simp only [acknowledge_signal, List.map_map, List.mem_map] at hr
    obtain ⟨a, _, rfl⟩ := hr
    by_cases h : a.id = sid <;> simp_all
  · intro hno
    have hids : ∀ a ∈ db.signals, ¬ a.id = sid := by
      intro a ha h
      exact hno ⟨a, ha, h⟩
    constructor
    · show { db with signals := _ } = db
      have hmap : (db.signals.map (fun r =>
          if r.id = sid then
            { r with acknowledged := true, acknowledged_at := some now }
          else r)) = db.signals := by
        conv_rhs => rw [← List.map_id db.signals]
        apply List.map_congr_left
        intro a ha
        simp [hids a ha]
      simp only [acknowledge_signal, hmap]
    · simp only [acknowledge_signal]
      rw [List.any_eq_false]
      intro a ha
      simp [hids a ha]

/-- Witness for C7 on `dbAck` (one unacknowledged row, id 7): the first
acknowledge returns true and the second acknowledge also returns true. -/
theorem acknowledge_correct_witness :
    (acknowledge_signal dbAck 100 7).2 = true ∧
    (acknowledge_signal (acknowledge_signal dbAck 100 7).1 200 7).2 = true := by
  have T := acknowledge_correct dbAck 100 200 7
  refine ⟨T.1.mpr ⟨sigRow7, by decide, by decide⟩, ?_⟩
  rw [T.2.2.1]
  exact T.1.mpr ⟨sigRow7, by decide, by decide⟩

/-- The trend computation of `get_summary` on two optional values equals
the amended C8 rule. -/
lemma summary_trend_eq_amended (price ma : Option ℚ) :
    summary_trend price ma = trend_amended_spec price ma := by
  cases price with
  | none => rfl
  | some p =>
    cases ma with
    | none => simp [summary_trend, trend_amended_spec, truthy]
    | some m =>
      by_cases h0 : p = 0 <;> by_cases h1 : m = 0 <;>
        simp_all [summary_trend, trend_amended_spec, truthy]

/-- C8, amended: `get_summary`'s trend is BULLISH when the latest price
and ma_200 are both present with nonzero values and price > ma_200,
BEARISH when both are present and nonzero and price ≤ ma_200 (equality
included), and NEUTRAL when either is absent or zero. -/
theorem summary_trend_correct (db : DB) (symbol : String) :
    get_summary_trend db symbol =
      trend_amended_spec ((db.latest (symbol, "price")).map (·.value))
        ((db.latest (symbol, "ma_200")).map (·.value)) := by
  unfold get_summary_trend
  exact summary_trend_eq_amended _ _

/-- C8, counterexample to the claim as stated: with latest price and
ma_200 both 100, the claim says NEUTRAL, but `get_summary` derives
BEARISH (`"BULLISH" if price > above_ma else "BEARISH"` has no equality
case). -/
theorem trend_claim_counterexample :
    get_summary_trend dbEqual "BTCUSD" = .BEARISH ∧
    trend_claim_spec ((dbEqual.latest ("BTCUSD", "price")).map (·.value))
      ((dbEqual.latest ("BTCUSD", "ma_200")).map (·.value)) = .NEUTRAL := by
  refine ⟨by decide, by decide⟩

/-- C9, amended: a single MACD update carrying value, value2 and value3
stores exactly the three names macd_line (from value), macd_signal (from
value2) and macd_histogram (from value3); a single BB or Bollinger
update carrying value and value2 stores bb_upper (from value) and
bb_lower (from value2) plus one record under the lowercased raw
indicator name ("bb" or "bollinger") — three stored names, not two. -/
theorem webhook_expansion (sym tf : String) (v1 v2 v3 : ℚ) (o3 : Option ℚ) :
    webhook_saves ⟨sym, "MACD", some v1, some v2, some v3, tf⟩ =
      [⟨"macd_line", some v1, some v2, some v3, tf⟩,
       ⟨"macd_signal", some v2, none, none, tf⟩,
       ⟨"macd_histogram", some v3, none, none, tf⟩] ∧
    webhook_saves ⟨sym, "BB", some v1, some v2, o3, tf⟩ =
      [⟨"bb", some v1, some v2, o3, tf⟩,
       ⟨"bb_upper", some v1, none, none, tf⟩,
       ⟨"bb_lower", some v2, none, none, tf⟩] ∧
    webhook_saves ⟨sym, "Bollinger", some v1, some v2, o3, tf⟩ =
      [⟨"bollinger", some v1, some v2, o3, tf⟩,
       ⟨"bb_upper", some v1, none, none, tf⟩,
       ⟨"bb_lower", some v2, none, none, tf⟩] := by
  refine ⟨?_, ?_, ?_⟩ <;> rfl

/-- C9, counterexample to the claim as stated: a BB update with value and
value2 results in three stored indicator names, not exactly two — the
unconditional first save stores the raw name "bb" because "BB" is not a
key of `indicator_map`. -/
theorem webhook_bb_counterexample :
    (webhook_saves wBB).map (·.indicator_name) = ["bb", "bb_upper", "bb_lower"] ∧
    ((webhook_saves wBB).map (·.indicator_name)).dedup.length ≠ 2 := by
  refine ⟨by decide, by decide⟩

/-- Filtering a list by a predicate and by its negation splits its length. -/
lemma length_filter_add_length_filter_not (l : List SigRow) (p : SigRow → Bool) :
    (l.filter p).length + (l.filter (fun r => !(p r))).length = l.length := by
  induction l with
  | nil => rfl
  | cons a t ih =>
    by_cases h : p a <;> simp [h, List.filter_cons] <;> omega

/-- C10: the integer returned by `cleanup_old_data` is the row count of
the signal-table deletion alone — it equals the number of signal rows
removed, is unchanged by whatever the indicators table holds, and on a
database with two old indicator rows and only an unacknowledged old
signal the call returns 0 while deleting both indicator rows. -/
theorem cleanup_returns_signal_count (db : DB) (now days : ℤ)
    (inds : List IndRow) :
    (cleanup_old_data db now days).2 =
        db.signals.length - (cleanup_old_data db now days).1.signals.length ∧
    (cleanup_old_data { db with indicators := inds } now days).2 =
        (cleanup_old_data db now days).2 ∧
    (cleanup_old_data dbOldUnacked 1000 30).2 = 0 ∧
    (cleanup_old_data dbOldUnacked 1000 30).1.indicators.length = 0 ∧
    dbOldUnacked.indicators.length = 2 := by
  refine ⟨?_, rfl, by decide, by decide, by decide⟩
  show (db.signals.filter _).length = db.signals.length - (db.signals.filter _).length
  have h := length_filter_add_length_filter_not db.signals
    (fun r => decide (r.received_at < now - days) && r.acknowledged)
  omega

end TradingData
